import Mathlib

/-!
Shallow embedding of the `gin-logger` middleware package (`gin.go`).

The host framework (gin) is modelled by an explicit per-request context
`GinCtx`; a downstream chain is a function `GinCtx → GinCtx` (or, for the
recovery middleware, `GinCtx → GinCtx × Option String`, the `Option String`
being a recovered panic value). Each middleware from the source becomes a
Lean function that takes the downstream handler and the incoming context and
returns the final context together with the list of log events the
middleware itself emitted, in emission order. zap fields are modelled as
`(name, FieldVal)` pairs; regular expressions configured by the caller
(`SkipPathRegexps`) are modelled as arbitrary boolean predicates on strings,
while the three fixed security regexes are implemented concretely as the
case-insensitive keyword containment they denote.
-/

/-- Severity levels of the logging backend. -/
inductive LogLevel where
  | debug
  | info
  | warn
  | error
deriving DecidableEq, Repr

/-- A typed zap field value. -/
inductive FieldVal where
  | str (s : String)
  | int (n : Int)
  | dur (n : Nat)
  | time (t : Nat) (utc : Bool)
  | anyv (s : String)
  | err (s : String)
deriving DecidableEq, Repr

/-- One emitted log event: severity, message, ordered field list. -/
structure LogEvent where
  level : LogLevel
  msg : String
  fields : List (String × FieldVal)
deriving DecidableEq, Repr

/-- Placeholder event used to state properties of `(· .headD dummyEvent)`. -/
def dummyEvent : LogEvent := ⟨LogLevel.debug, "", []⟩

/-- Whether an event carries a field with the given name. -/
def LogEvent.hasField (e : LogEvent) (k : String) : Bool :=
  e.fields.any (fun p => p.1 == k)

/-- A logging handle: the fields it is pre-bound with (`zap` scoped logger). -/
structure Logger where
  bound : List (String × FieldVal)
deriving DecidableEq, Repr

/-- The process-wide logging handle (`GetLogger()` from go-logger): unscoped. -/
def GetLogger : Logger := ⟨[]⟩

/-- `logger.With(fields...)`: a handle pre-bound with additional fields. -/
def Logger.With (l : Logger) (fs : List (String × FieldVal)) : Logger :=
  ⟨l.bound ++ fs⟩

/-- Emitting through a handle prepends its bound fields to the event. -/
def Logger.log (l : Logger) (lvl : LogLevel) (msg : String)
    (fs : List (String × FieldVal)) : LogEvent :=
  ⟨lvl, msg, l.bound ++ fs⟩

/-- The inbound HTTP request as the middleware sees it. A body of `none`
models a nil `Body`; `some (Except.ok s)` a readable body whose full content
is `s`; `some (Except.error ())` a body whose read fails. `contentLength`
is the declared `Content-Length` (int64 in Go, may be negative). -/
structure GinRequest where
  method : String
  path : String
  rawQuery : String
  headers : List (String × String)
  userAgent : String
  referer : String
  clientIP : String
  body : Option (Except Unit String)
  contentLength : Int

/-- Go's `Header.Get`: first value for the key, `""` when absent. -/
def getHeader (r : GinRequest) (k : String) : String :=
  match r.headers.find? (fun p => p.1 == k) with
  | some p => p.2
  | none => ""

/-- The per-request gin context: request, `c.Set` key/value store, response
status and size (`c.Writer`), response headers, abort flag, and a wall
clock in nanoseconds (advanced only by downstream handlers). -/
structure GinCtx where
  req : GinRequest
  keys : List (String × String)
  status : Int
  respHeaders : List (String × String)
  respSize : Int
  time : Nat
  aborted : Bool

/-- `c.GetString(k)`: the stored string for `k`, `""` when absent. -/
def GinCtx.getString (c : GinCtx) (k : String) : String :=
  match c.keys.find? (fun p => p.1 == k) with
  | some p => p.2
  | none => ""

/-- `c.Set(k, v)` (overwrites any earlier value for `k`). -/
def GinCtx.setKey (c : GinCtx) (k v : String) : GinCtx :=
  { c with keys := (k, v) :: c.keys }

/-- `c.Header(k, v)`: set an outbound response header. -/
def GinCtx.setRespHeader (c : GinCtx) (k v : String) : GinCtx :=
  { c with respHeaders := (k, v) :: c.respHeaders }

/-- Read back an outbound response header, `""` when absent. -/
def GinCtx.getRespHeader (c : GinCtx) (k : String) : String :=
  match c.respHeaders.find? (fun p => p.1 == k) with
  | some p => p.2
  | none => ""

/-! ### Request identifier provider (`RequestIDMiddleware`, `generateRequestID`) -/

/-- The character set used by `randomString`. -/
def charset : String := "abcdefghijklmnopqrstuvwxyzABCDEFGHIJKLMNOPQRSTUVWXYZ0123456789"

/-- `randomString(length)`: each position indexes `charset` by
`time.Now().UnixNano() % 62`; the clock readings are a parameter `nano`. -/
def randomString (length : Nat) (nano : Nat → Nat) : String :=
  String.mk ((List.range length).map (fun i => charset.data.getD (nano i % charset.data.length) 'a'))

/-- `generateRequestID()`: formatted timestamp, a dash, eight random
characters. The formatted wall-clock string and the nanosecond readings are
parameters (the clock is external state). -/
def generateRequestID (fmt : String) (nano : Nat → Nat) : String :=
  fmt ++ "-" ++ randomString 8 nano

/-- the identifier `RequestIDMiddleware` settles on: the inbound
`X-Request-ID` header when non-empty, a fresh one otherwise. -/
def resolveRequestID (c : GinCtx) (fmt : String) (nano : Nat → Nat) : String :=
  let requestID := getHeader c.req "X-Request-ID"
  if requestID == "" then generateRequestID fmt nano else requestID

/-- `RequestIDMiddleware()`: resolve the identifier, store it under
`request_id`, mirror it into the outbound `X-Request-ID` header, then run
the rest of the chain. Emits no events. -/
def RequestIDMiddleware (fmt : String) (nano : Nat → Nat)
    (handler : GinCtx → GinCtx) (c : GinCtx) : GinCtx :=
  let requestID := resolveRequestID c fmt nano
  let c := c.setKey "request_id" requestID
  let c := c.setRespHeader "X-Request-ID" requestID
  handler c

/-! ### Security heuristics engine (`SecurityLogger`) -/

/-- Does `pat` head-match `hay`? -/
def leadMatch : List Char → List Char → Bool
  | [], _ => true
  | _ :: _, [] => false
  | a :: as, b :: bs => a == b && leadMatch as bs

/-- Does `pat` occur contiguously inside `hay`? -/
def subword (pat : List Char) : List Char → Bool
  | [] => leadMatch pat []
  | b :: bs => leadMatch pat (b :: bs) || subword pat bs

/-- Case-sensitive substring containment on strings. -/
def strHas (s pat : String) : Bool := subword pat.data s.data

/-- Case-insensitive substring containment: lower-case both sides first
(matching a Go `(?i)` literal-alternation regex). -/
def strHasCI (s pat : String) : Bool :=
  subword (pat.data.map Char.toLower) (s.data.map Char.toLower)

/-- The `(?i)(union|select|insert|delete|drop|create|alter|exec|script)`
regex: the path contains one of the keywords, case-insensitively. -/
def sqlInjectionMatch (path : String) : Bool :=
  ["union", "select", "insert", "delete", "drop", "create", "alter", "exec",
    "script"].any (fun k => strHasCI path k)

/-- The `(?i)(<script|javascript:|onload=|onerror=)` regex. -/
def xssMatch (path : String) : Bool :=
  ["<script", "javascript:", "onload=", "onerror="].any (fun k => strHasCI path k)

/-- The `\.\./` regex: the path contains `../`. -/
def traversalMatch (path : String) : Bool := strHas path "../"

/-- The sequential suspicious/reason computation of `SecurityLogger`: each
matching category overwrites the previous reason. -/
def securityScan (path : String) : Bool × String :=
  let suspicious := false
  let reason := ""
  let (suspicious, reason) :=
    if sqlInjectionMatch path then (true, "SQL injection attempt") else (suspicious, reason)
  let (suspicious, reason) :=
    if xssMatch path then (true, "XSS attempt") else (suspicious, reason)
  let (suspicious, reason) :=
    if traversalMatch path then (true, "Path traversal attempt") else (suspicious, reason)
  (suspicious, reason)

/-- `SecurityLogger()`: scan the path, emit one warning event when
suspicious, then always forward to the rest of the chain. -/
def SecurityLogger (handler : GinCtx → GinCtx) (c : GinCtx) : GinCtx × List LogEvent :=
  let userAgent := c.req.userAgent
  let path := c.req.path
  let scan := securityScan path
  let events :=
    if scan.1 then
      let fields := [("method", FieldVal.str c.req.method),
        ("path", FieldVal.str path),
        ("ip", FieldVal.str c.req.clientIP),
        ("user_agent", FieldVal.str userAgent),
        ("reason", FieldVal.str scan.2)]
      let fields := fields ++
        (if c.getString "request_id" ≠ "" then
          [("request_id", FieldVal.str (c.getString "request_id"))] else [])
      [GetLogger.log LogLevel.warn "Suspicious request detected" fields]
    else []
  (handler c, events)

/-! ### Recovery (`RecoveryLogger`) -/

/-- `RecoveryLogger()`: the host (`gin.CustomRecovery`) runs the downstream
chain and hands any recovered panic value to the installed function, which
logs one error event and finalizes the response with `AbortWithStatus(500)`.
A downstream chain is `GinCtx → GinCtx × Option String`, the second
component being the panic value when the chain panics; the result's
`Option String` is the fault (if any) that propagates past this middleware. -/
def RecoveryLogger (handler : GinCtx → GinCtx × Option String) (c : GinCtx) :
    (GinCtx × Option String) × List LogEvent :=
  match handler c with
  | (c', none) => ((c', none), [])
  | (c', some recovered) =>
    let fields := [("method", FieldVal.str c'.req.method),
      ("path", FieldVal.str c'.req.path),
      ("ip", FieldVal.str c'.req.clientIP),
      ("panic", FieldVal.anyv recovered)]
    let fields := fields ++
      (if c'.getString "request_id" ≠ "" then
        [("request_id", FieldVal.str (c'.getString "request_id"))] else [])
    (({ c' with status := 500, aborted := true }, none),
      [GetLogger.log LogLevel.error "Panic recovered" fields])

/-! ### Performance logger (`PerformanceLogger`) -/

/-- `time.Second` in nanoseconds. -/
def nsPerSecond : Nat := 1000000000

/-- `PerformanceLogger()`: time the downstream chain; warn when the latency
strictly exceeds one second. -/
def PerformanceLogger (handler : GinCtx → GinCtx) (c : GinCtx) : GinCtx × List LogEvent :=
  let start := c.time
  let c' := handler c
  let latency := c'.time - start
  if latency > nsPerSecond then
    let fields := [("method", FieldVal.str c'.req.method),
      ("path", FieldVal.str c'.req.path),
      ("latency", FieldVal.dur latency),
      ("status", FieldVal.int c'.status)]
    let fields := fields ++
      (if c'.getString "request_id" ≠ "" then
        [("request_id", FieldVal.str (c'.getString "request_id"))] else [])
    (c', [GetLogger.log LogLevel.warn "Slow request detected" fields])
  else (c', [])

/-! ### Context-scoped logger accessor (`LoggerFromContext`) -/

/-- `LoggerFromContext(c)`: the global handle pre-bound with whichever of
`request_id` / `user_id` are currently present in the context; the global
handle itself when neither is. -/
def LoggerFromContext (c : GinCtx) : Logger :=
  let logger := GetLogger
  let fields : List (String × FieldVal) := []
  let fields := fields ++
    (if c.getString "request_id" ≠ "" then
      [("request_id", FieldVal.str (c.getString "request_id"))] else [])
  let fields := fields ++
    (if c.getString "user_id" ≠ "" then
      [("user_id", FieldVal.str (c.getString "user_id"))] else [])
  if fields.length > 0 then logger.With fields else logger

/-! ### Basic completion logger (`GinLogger`, `GinLoggerWithConfig`) -/

/-- Configuration of the basic completion logger. -/
structure GinLoggerConfig where
  logger : Option Logger := none
  utc : Bool := false
  skipPaths : List String := []

/-- The field list `GinLoggerWithConfig` assembles after the chain returns.
`start` is the recorded entry time, `path`/`raw` the values saved before
forwarding, `c'` the context after the chain ran. Conditional appends are
modelled as appended singleton-or-empty segments, preserving order. -/
def ginLoggerFields (config : GinLoggerConfig) (start : Nat) (path raw : String)
    (c' : GinCtx) : List (String × FieldVal) :=
  [("method", FieldVal.str c'.req.method),
    ("path", FieldVal.str path),
    ("ip", FieldVal.str c'.req.clientIP),
    ("user_agent", FieldVal.str c'.req.userAgent),
    ("status", FieldVal.int c'.status),
    ("latency", FieldVal.dur (c'.time - start)),
    ("body_size", FieldVal.int c'.respSize),
    ("timestamp", FieldVal.time start config.utc)]
  ++ (if raw ≠ "" then [("query", FieldVal.str raw)] else [])
  ++ (if c'.getString "request_id" ≠ "" then
      [("request_id", FieldVal.str (c'.getString "request_id"))] else [])
  ++ (if c'.getString "user_id" ≠ "" then
      [("user_id", FieldVal.str (c'.getString "user_id"))] else [])

/-- `GinLoggerWithConfig(config)`: skip excluded paths, otherwise time the
chain and emit exactly one completion event whose severity is chosen from
the final status. -/
def GinLoggerWithConfig (config : GinLoggerConfig) (handler : GinCtx → GinCtx)
    (c : GinCtx) : GinCtx × List LogEvent :=
  let logger := config.logger.getD GetLogger
  if c.req.path ∈ config.skipPaths then (handler c, [])
  else
    let start := c.time
    let path := c.req.path
    let raw := c.req.rawQuery
    let c' := handler c
    let fields := ginLoggerFields config start path raw c'
    let ev :=
      if c'.status ≥ 500 then logger.log LogLevel.error "Server error" fields
      else if c'.status ≥ 400 then logger.log LogLevel.warn "Client error" fields
      else if c'.status ≥ 300 then logger.log LogLevel.info "Redirection" fields
      else logger.log LogLevel.info "Request completed" fields
    (c', [ev])

/-- `GinLogger()` is `GinLoggerWithConfig` with the zero config. -/
def GinLogger : (GinCtx → GinCtx) → GinCtx → GinCtx × List LogEvent :=
  GinLoggerWithConfig {}

/-! ### Standalone request-body logger (`RequestBodyLogger`) -/

/-- Configuration of the standalone body logger. -/
structure RequestBodyLoggerConfig where
  maxBodySize : Int := 0
  skipPaths : List String := []

/-- The `if config.MaxBodySize == 0 { config.MaxBodySize = 1024*1024 }`
default applied at construction time. -/
def RequestBodyLoggerConfig.resolvedMaxBodySize (config : RequestBodyLoggerConfig) : Int :=
  if config.maxBodySize = 0 then 1024 * 1024 else config.maxBodySize

/-- `RequestBodyLogger(config)`: on non-excluded paths with a non-nil body
whose declared length is within bounds, read the body; on a successful read
restore it and emit one debug event carrying the content; on a failed read
do nothing; always forward afterwards. -/
def RequestBodyLogger (config : RequestBodyLoggerConfig)
    (handler : GinCtx → GinCtx) (c : GinCtx) : GinCtx × List LogEvent :=
  if c.req.path ∈ config.skipPaths then (handler c, [])
  else
    let read :=
      if c.req.body.isSome ∧ c.req.contentLength ≤ config.resolvedMaxBodySize then
        match c.req.body with
        | some (Except.ok bodyBytes) => some bodyBytes
        | _ => none
      else none
    match read with
    | some bodyBytes =>
      let c := { c with req := { c.req with body := some (Except.ok bodyBytes) } }
      let fields := [("method", FieldVal.str c.req.method),
        ("path", FieldVal.str c.req.path),
        ("body", FieldVal.str bodyBytes)]
      let fields := fields ++
        (if c.getString "request_id" ≠ "" then
          [("request_id", FieldVal.str (c.getString "request_id"))] else [])
      (handler c, [GetLogger.log LogLevel.debug "Request body" fields])
    | none => (handler c, [])

/-! ### Structured request interceptor (`StructuredLogger`) -/

/-- Configuration of the structured interceptor. `skipPathRegexps` models
`[]*regexp.Regexp` as string predicates (`MatchString`). -/
structure StructuredLoggerConfig where
  logger : Option Logger := none
  skipPaths : List String := []
  skipPathRegexps : List (String → Bool) := []
  utc : Bool := false
  logHeaders : List String := []
  logRequestBody : Bool := false
  logResponseBody : Bool := false
  maxBodySize : Int := 0
  logUserAgent : Bool := false
  logReferer : Bool := false
  logClientIP : Bool := false
  customFields : Option (GinCtx → List (String × FieldVal)) := none

/-- The `if config.MaxBodySize == 0 { config.MaxBodySize = 1024*1024 }`
default applied at construction time. -/
def StructuredLoggerConfig.resolvedMaxBodySize (config : StructuredLoggerConfig) : Int :=
  if config.maxBodySize = 0 then 1024 * 1024 else config.maxBodySize

/-- The `header_<Name>` fields: each configured header that is present on
the request, in configuration order. -/
def headerFields (r : GinRequest) (names : List String) : List (String × FieldVal) :=
  names.filterMap (fun h =>
    if getHeader r h ≠ "" then some ("header_" ++ h, FieldVal.str (getHeader r h)) else none)

/-- The field list `StructuredLogger` assembles after the chain returns:
base fields, then each conditional append (modelled as a
singleton-or-empty segment), then custom fields last. `requestBody` is the
captured body (`""` when none was captured). -/
def structuredFields (config : StructuredLoggerConfig) (start : Nat)
    (path raw : String) (requestBody : String) (c' : GinCtx) :
    List (String × FieldVal) :=
  [("method", FieldVal.str c'.req.method),
    ("path", FieldVal.str path),
    ("status", FieldVal.int c'.status),
    ("latency", FieldVal.dur (c'.time - start)),
    ("body_size", FieldVal.int c'.respSize),
    ("timestamp", FieldVal.time start config.utc)]
  ++ (if raw ≠ "" then [("query", FieldVal.str raw)] else [])
  ++ (if config.logClientIP then [("ip", FieldVal.str c'.req.clientIP)] else [])
  ++ (if config.logUserAgent then [("user_agent", FieldVal.str c'.req.userAgent)] else [])
  ++ (if config.logReferer ∧ c'.req.referer ≠ "" then
      [("referer", FieldVal.str c'.req.referer)] else [])
  ++ headerFields c'.req config.logHeaders
  ++ (if requestBody ≠ "" then [("request_body", FieldVal.str requestBody)] else [])
  ++ (if c'.getString "request_id" ≠ "" then
      [("request_id", FieldVal.str (c'.getString "request_id"))] else [])
  ++ (if c'.getString "user_id" ≠ "" then
      [("user_id", FieldVal.str (c'.getString "user_id"))] else [])
  ++ (match config.customFields with | some f => f c' | none => [])

/-- `StructuredLogger(config)`: skip excluded paths (exact set, then regex
list); otherwise record entry time, capture (and restore) the request body
when enabled, non-nil and within the declared-length bound, forward, and
emit exactly one completion event whose severity is chosen from the final
status. -/
def StructuredLogger (config : StructuredLoggerConfig) (handler : GinCtx → GinCtx)
    (c : GinCtx) : GinCtx × List LogEvent :=
  let logger := config.logger.getD GetLogger
  if c.req.path ∈ config.skipPaths then (handler c, [])
  else if config.skipPathRegexps.any (fun r => r c.req.path) then (handler c, [])
  else
    let start := c.time
    let path := c.req.path
    let raw := c.req.rawQuery
    let capture :=
      if config.logRequestBody = true ∧ c.req.body.isSome = true ∧
          c.req.contentLength ≤ config.resolvedMaxBodySize then
        match c.req.body with
        | some (Except.ok bodyBytes) => some bodyBytes
        | _ => none
      else none
    let requestBody := capture.getD ""
    let c1 :=
      match capture with
      | some bodyBytes => { c with req := { c.req with body := some (Except.ok bodyBytes) } }
      | none => c
    let c' := handler c1
    let fields := structuredFields config start path raw requestBody c'
    let ev :=
      if c'.status ≥ 500 then logger.log LogLevel.error "Server error" fields
      else if c'.status ≥ 400 then logger.log LogLevel.warn "Client error" fields
      else if c'.status ≥ 300 then logger.log LogLevel.info "Redirection" fields
      else logger.log LogLevel.info "Request completed" fields
    (c', [ev])

/-! ### Sample data used by witnesses -/

/-- A minimal request. -/
def emptyReq : GinRequest :=
  { method := "GET", path := "/", rawQuery := "", headers := [], userAgent := "",
    referer := "", clientIP := "", body := none, contentLength := 0 }

/-- A minimal context. -/
def baseCtx : GinCtx :=
  { req := emptyReq, keys := [], status := 200, respHeaders := [], respSize := 0,
    time := 0, aborted := false }

/-! ### Helper lemmas -/

theorem generateRequestID_ne_empty (fmt : String) (nano : Nat → Nat) :
    generateRequestID fmt nano ≠ "" := by
  intro h
  have hd := congrArg String.data h
  simp only [generateRequestID, String.data_append] at hd
  rcases List.append_eq_nil.mp (List.append_eq_nil.mp hd).1 with ⟨-, hdash⟩
  simp at hdash

theorem getString_setKey_same (c : GinCtx) (k v : String) :
    (c.setKey k v).getString k = v := by
  simp [GinCtx.setKey, GinCtx.getString, List.find?]

theorem getString_setKey_other (c : GinCtx) (k k' v : String) (h : k ≠ k') :
    (c.setKey k v).getString k' = c.getString k' := by
  have hb : (k == k') = false := by simpa using h
  simp [GinCtx.setKey, GinCtx.getString, List.find?, hb]

theorem getString_setRespHeader (c : GinCtx) (k k' v : String) :
    (c.setRespHeader k v).getString k' = c.getString k' := rfl

theorem getRespHeader_setRespHeader_same (c : GinCtx) (k v : String) :
    (c.setRespHeader k v).getRespHeader k = v := by
  simp [GinCtx.setRespHeader, GinCtx.getRespHeader, List.find?]

theorem resolveRequestID_ne_empty (c : GinCtx) (fmt : String) (nano : Nat → Nat) :
    resolveRequestID c fmt nano ≠ "" := by
  unfold resolveRequestID
  by_cases h : getHeader c.req "X-Request-ID" = ""
  · simp [h, generateRequestID_ne_empty]
  · simp [h]

/-- C2: `RequestIDMiddleware` forwards to the chain with the resolved
identifier stored under `request_id` and mirrored into the outbound
`X-Request-ID` header; the identifier equals the inbound header when that
is non-empty, and is the freshly generated, non-empty value otherwise. -/
theorem requestID_propagation (fmt : String) (nano : Nat → Nat)
    (handler : GinCtx → GinCtx) (c : GinCtx) :
    RequestIDMiddleware fmt nano handler c =
      handler ((c.setKey "request_id" (resolveRequestID c fmt nano)).setRespHeader
        "X-Request-ID" (resolveRequestID c fmt nano))
    ∧ (getHeader c.req "X-Request-ID" ≠ "" →
        resolveRequestID c fmt nano = getHeader c.req "X-Request-ID")
    ∧ (getHeader c.req "X-Request-ID" = "" →
        resolveRequestID c fmt nano = generateRequestID fmt nano)
    ∧ resolveRequestID c fmt nano ≠ ""
    ∧ ((c.setKey "request_id" (resolveRequestID c fmt nano)).setRespHeader
        "X-Request-ID" (resolveRequestID c fmt nano)).getString "request_id" =
        resolveRequestID c fmt nano
    ∧ ((c.setKey "request_id" (resolveRequestID c fmt nano)).setRespHeader
        "X-Request-ID" (resolveRequestID c fmt nano)).getRespHeader "X-Request-ID" =
        resolveRequestID c fmt nano := by
  refine ⟨rfl, ?_, ?_, resolveRequestID_ne_empty c fmt nano, ?_, ?_⟩
  · intro h
    simp [resolveRequestID, h]
  · intro h
    simp [resolveRequestID, h]
  · rw [getString_setRespHeader, getString_setKey_same]
  · exact getRespHeader_setRespHeader_same _ _ _

/-- C2 witness: a request carrying `X-Request-ID: abc` (hypothesis of the
second conjunct discharged concretely) and one without the header
(hypothesis of the third conjunct). -/
theorem requestID_propagation_witness :
    (getHeader { emptyReq with headers := [("X-Request-ID", "abc")] } "X-Request-ID" ≠ "") ∧
    resolveRequestID { baseCtx with req := { emptyReq with headers := [("X-Request-ID", "abc")] } }
        "t" (fun _ => 0) =
      getHeader { emptyReq with headers := [("X-Request-ID", "abc")] } "X-Request-ID" ∧
    (getHeader baseCtx.req "X-Request-ID" = "") ∧
    resolveRequestID baseCtx "t" (fun _ => 0) = generateRequestID "t" (fun _ => 0) ∧
    resolveRequestID baseCtx "t" (fun _ => 0) ≠ "" :=
  ⟨by decide,
    (requestID_propagation "t" (fun _ => 0) id
      { baseCtx with req := { emptyReq with headers := [("X-Request-ID", "abc")] } }).2.1
      (by decide),
    by decide,
    (requestID_propagation "t" (fun _ => 0) id baseCtx).2.2.1 (by decide),
    (requestID_propagation "t" (fun _ => 0) id baseCtx).2.2.2.1⟩

/-! ### Security engine theorems -/

/-- The spec's SQL-injection example path, `/api/users?id=1<apos> UNION
SELECT * FROM users--` (the apostrophe written via its code point). -/
def examplePath : String :=
  "/api/users?id=1" ++ String.singleton (Char.ofNat 39) ++ " UNION SELECT * FROM users--"

/-- C3: the security engine checks SQL injection, then XSS, then path
traversal, a later match's reason overwriting an earlier one; the example
path reports "SQL injection attempt"; a matching request produces one
warning event carrying the reason; a clean path produces no event; and the
chain always continues with the context unchanged. -/
theorem security_scan_order (handler : GinCtx → GinCtx) (c : GinCtx) (p : String) :
    (SecurityLogger handler c).1 = handler c
    ∧ (traversalMatch p = true → securityScan p = (true, "Path traversal attempt"))
    ∧ (xssMatch p = true → traversalMatch p = false → securityScan p = (true, "XSS attempt"))
    ∧ (sqlInjectionMatch p = true → xssMatch p = false → traversalMatch p = false →
        securityScan p = (true, "SQL injection attempt"))
    ∧ (sqlInjectionMatch p = false → xssMatch p = false → traversalMatch p = false →
        securityScan p = (false, ""))
    ∧ ((securityScan c.req.path).1 = false → (SecurityLogger handler c).2 = [])
    ∧ ((securityScan c.req.path).1 = true →
        (SecurityLogger handler c).2.length = 1
        ∧ ((SecurityLogger handler c).2.headD dummyEvent).level = LogLevel.warn
        ∧ ((SecurityLogger handler c).2.headD dummyEvent).msg = "Suspicious request detected"
        ∧ ("reason", FieldVal.str (securityScan c.req.path).2) ∈
            ((SecurityLogger handler c).2.headD dummyEvent).fields)
    ∧ securityScan examplePath = (true, "SQL injection attempt") := by
  refine ⟨rfl, ?_, ?_, ?_, ?_, ?_, ?_, by decide⟩
  · intro h
    simp [securityScan, h]
  · intro h1 h2
    simp [securityScan, h1, h2]
  · intro h1 h2 h3
    simp [securityScan, h1, h2, h3]
  · intro h1 h2 h3
    simp [securityScan, h1, h2, h3]
  · intro h
    simp [SecurityLogger, h]
  · intro h
    refine ⟨by simp [SecurityLogger, h], by simp [SecurityLogger, h, Logger.log, GetLogger], ?_, ?_⟩
    · simp [SecurityLogger, h, Logger.log, GetLogger]
    · simp [SecurityLogger, h, Logger.log, GetLogger]

/-- A context whose path contains a traversal sequence. -/
def travCtx : GinCtx := { baseCtx with req := { emptyReq with path := "/a/../b" } }

/-- C3 witness: concrete scans for a traversal path, an XSS path, the
example path, a clean path, and the emitted event for the traversal path. -/
theorem security_scan_order_witness :
    (traversalMatch "/a/../b" = true ∧
      securityScan "/a/../b" = (true, "Path traversal attempt")) ∧
    (xssMatch "/p/<script>x" = true ∧ traversalMatch "/p/<script>x" = false ∧
      securityScan "/p/<script>x" = (true, "XSS attempt")) ∧
    ((securityScan baseCtx.req.path).1 = false ∧ (SecurityLogger id baseCtx).2 = []) ∧
    ((securityScan travCtx.req.path).1 = true ∧
      ((SecurityLogger id travCtx).2.length = 1
        ∧ ((SecurityLogger id travCtx).2.headD dummyEvent).level = LogLevel.warn
        ∧ ((SecurityLogger id travCtx).2.headD dummyEvent).msg = "Suspicious request detected"
        ∧ ("reason", FieldVal.str (securityScan travCtx.req.path).2) ∈
            ((SecurityLogger id travCtx).2.headD dummyEvent).fields)) :=
  ⟨⟨by decide, (security_scan_order id baseCtx "/a/../b").2.1 (by decide)⟩,
    ⟨by decide, by decide,
      (security_scan_order id baseCtx "/p/<script>x").2.2.1 (by decide) (by decide)⟩,
    ⟨by decide, (security_scan_order id baseCtx "/").2.2.2.2.2.1 (by decide)⟩,
    ⟨by decide, (security_scan_order id travCtx "/").2.2.2.2.2.2.1 (by decide)⟩⟩

/-! ### Recovery theorems -/

/-- C7: the recovery middleware never lets a fault propagate; an untroubled
chain passes through unchanged with no event; a chain that panics with
value `v` yields exactly one error-level "Panic recovered" event carrying
the fault value, method, path, client address, and the request identifier
when present, and the response is finalized with status 500. -/
theorem recovery_catches_panic (handler : GinCtx → GinCtx × Option String)
    (c c' : GinCtx) (v : String) :
    (RecoveryLogger handler c).1.2 = none
    ∧ (handler c = (c', none) → RecoveryLogger handler c = ((c', none), []))
    ∧ (handler c = (c', some v) →
        (RecoveryLogger handler c).1.1.status = 500
        ∧ (RecoveryLogger handler c).1.1.aborted = true
        ∧ (RecoveryLogger handler c).2.length = 1
        ∧ ((RecoveryLogger handler c).2.headD dummyEvent).level = LogLevel.error
        ∧ ((RecoveryLogger handler c).2.headD dummyEvent).msg = "Panic recovered"
        ∧ ("panic", FieldVal.anyv v) ∈ ((RecoveryLogger handler c).2.headD dummyEvent).fields
        ∧ ("method", FieldVal.str c'.req.method) ∈
            ((RecoveryLogger handler c).2.headD dummyEvent).fields
        ∧ ("path", FieldVal.str c'.req.path) ∈
            ((RecoveryLogger handler c).2.headD dummyEvent).fields
        ∧ ("ip", FieldVal.str c'.req.clientIP) ∈
            ((RecoveryLogger handler c).2.headD dummyEvent).fields
        ∧ (c'.getString "request_id" ≠ "" →
            ("request_id", FieldVal.str (c'.getString "request_id")) ∈
              ((RecoveryLogger handler c).2.headD dummyEvent).fields)) := by
  refine ⟨?_, ?_, ?_⟩
  · rcases hh : handler c with ⟨c0, o⟩
    cases o <;> simp [RecoveryLogger, hh]
  · intro h
    simp [RecoveryLogger, h]
  · intro h
    refine ⟨by simp [RecoveryLogger, h], by simp [RecoveryLogger, h],
      by simp [RecoveryLogger, h], by simp [RecoveryLogger, h, Logger.log, GetLogger],
      by simp [RecoveryLogger, h, Logger.log, GetLogger],
      by simp [RecoveryLogger, h, Logger.log, GetLogger],
      by simp [RecoveryLogger, h, Logger.log, GetLogger],
      by simp [RecoveryLogger, h, Logger.log, GetLogger],
      by simp [RecoveryLogger, h, Logger.log, GetLogger], ?_⟩
    intro h2
    simp [RecoveryLogger, h, Logger.log, GetLogger, h2]

/-- A downstream chain that panics with "boom" after setting a request id. -/
def panicHandler : GinCtx → GinCtx × Option String :=
  fun c => (c.setKey "request_id" "rid-1", some "boom")

/-- C7 witness: a concrete panicking chain is caught, logged once at error
severity with its fault value, and answered with a 500. -/
theorem recovery_catches_panic_witness :
    (panicHandler baseCtx = (baseCtx.setKey "request_id" "rid-1", some "boom")) ∧
    ((RecoveryLogger panicHandler baseCtx).1.1.status = 500
      ∧ (RecoveryLogger panicHandler baseCtx).1.1.aborted = true
      ∧ (RecoveryLogger panicHandler baseCtx).2.length = 1
      ∧ ((RecoveryLogger panicHandler baseCtx).2.headD dummyEvent).level = LogLevel.error
      ∧ ((RecoveryLogger panicHandler baseCtx).2.headD dummyEvent).msg = "Panic recovered"
      ∧ ("panic", FieldVal.anyv "boom") ∈
          ((RecoveryLogger panicHandler baseCtx).2.headD dummyEvent).fields
      ∧ ("method", FieldVal.str (baseCtx.setKey "request_id" "rid-1").req.method) ∈
          ((RecoveryLogger panicHandler baseCtx).2.headD dummyEvent).fields
      ∧ ("path", FieldVal.str (baseCtx.setKey "request_id" "rid-1").req.path) ∈
          ((RecoveryLogger panicHandler baseCtx).2.headD dummyEvent).fields
      ∧ ("ip", FieldVal.str (baseCtx.setKey "request_id" "rid-1").req.clientIP) ∈
          ((RecoveryLogger panicHandler baseCtx).2.headD dummyEvent).fields
      ∧ ((baseCtx.setKey "request_id" "rid-1").getString "request_id" ≠ "" →
          ("request_id",
            FieldVal.str ((baseCtx.setKey "request_id" "rid-1").getString "request_id")) ∈
            ((RecoveryLogger panicHandler baseCtx).2.headD dummyEvent).fields)) :=
  ⟨rfl,
    (recovery_catches_panic panicHandler baseCtx
      (baseCtx.setKey "request_id" "rid-1") "boom").2.2 rfl⟩

/-! ### Performance logger theorems -/

/-- C8: the standalone performance logger forwards the chain result
untouched, emits exactly one warning event when the measured latency
strictly exceeds one second, emits nothing otherwise, and whether it emits
is unchanged under overriding the final status. -/
theorem performance_slow_requests (handler : GinCtx → GinCtx) (c : GinCtx) (s : Int) :
    (PerformanceLogger handler c).1 = handler c
    ∧ ((handler c).time - c.time > nsPerSecond →
        (PerformanceLogger handler c).2.length = 1
        ∧ ((PerformanceLogger handler c).2.headD dummyEvent).level = LogLevel.warn
        ∧ ((PerformanceLogger handler c).2.headD dummyEvent).msg = "Slow request detected")
    ∧ (¬ (handler c).time - c.time > nsPerSecond → (PerformanceLogger handler c).2 = [])
    ∧ (PerformanceLogger (fun x => { handler x with status := s }) c).2.length =
        (PerformanceLogger handler c).2.length := by
  refine ⟨?_, ?_, ?_, ?_⟩
  · by_cases hc : (handler c).time - c.time > nsPerSecond <;>
      simp [PerformanceLogger, hc]
  · intro hc
    simp [PerformanceLogger, hc, Logger.log, GetLogger]
  · intro hc
    simp [PerformanceLogger, hc]
  · by_cases hc : (handler c).time - c.time > nsPerSecond <;>
      simp [PerformanceLogger, hc]

/-- A downstream chain that takes two seconds. -/
def slowHandler : GinCtx → GinCtx :=
  fun c => { c with time := c.time + 2 * nsPerSecond }

/-- C8 witness: a two-second chain triggers exactly one warning; an
instantaneous chain (`id`) triggers none. -/
theorem performance_slow_requests_witness :
    ((slowHandler baseCtx).time - baseCtx.time > nsPerSecond) ∧
    ((PerformanceLogger slowHandler baseCtx).2.length = 1
      ∧ ((PerformanceLogger slowHandler baseCtx).2.headD dummyEvent).level = LogLevel.warn
      ∧ ((PerformanceLogger slowHandler baseCtx).2.headD dummyEvent).msg =
          "Slow request detected") ∧
    (¬ (id baseCtx : GinCtx).time - baseCtx.time > nsPerSecond) ∧
    (PerformanceLogger id baseCtx).2 = [] :=
  ⟨by decide,
    (performance_slow_requests slowHandler baseCtx 0).2.1 (by decide),
    by decide,
    (performance_slow_requests id baseCtx 0).2.2.1 (by decide)⟩

/-! ### Context-scoped logger theorems -/

/-- C9: `LoggerFromContext` returns the unscoped global handle when neither
`request_id` nor `user_id` is present; otherwise a handle bound with exactly
the identity fields present at call time; and setting `user_id` in the
context makes the handles obtained before and after differ exactly by the
appended `user_id` field. -/
theorem logger_from_context_binding (c : GinCtx) (u : String) :
    (c.getString "request_id" = "" → c.getString "user_id" = "" →
        LoggerFromContext c = GetLogger)
    ∧ (c.getString "request_id" ≠ "" → c.getString "user_id" = "" →
        (LoggerFromContext c).bound =
          [("request_id", FieldVal.str (c.getString "request_id"))])
    ∧ (c.getString "request_id" ≠ "" → c.getString "user_id" ≠ "" →
        (LoggerFromContext c).bound =
          [("request_id", FieldVal.str (c.getString "request_id")),
            ("user_id", FieldVal.str (c.getString "user_id"))])
    ∧ (c.getString "request_id" = "" → c.getString "user_id" ≠ "" →
        (LoggerFromContext c).bound = [("user_id", FieldVal.str (c.getString "user_id"))])
    ∧ (c.getString "user_id" = "" → u ≠ "" →
        (LoggerFromContext (c.setKey "user_id" u)).bound =
          (LoggerFromContext c).bound ++ [("user_id", FieldVal.str u)]) := by
  refine ⟨?_, ?_, ?_, ?_, ?_⟩
  · intro h1 h2
    simp [LoggerFromContext, h1, h2]
  · intro h1 h2
    simp [LoggerFromContext, Logger.With, GetLogger, h1, h2]
  · intro h1 h2
    simp [LoggerFromContext, Logger.With, GetLogger, h1, h2]
  · intro h1 h2
    simp [LoggerFromContext, Logger.With, GetLogger, h1, h2]
  · intro h1 h2
    have hu : ((c.setKey "user_id" u).getString "user_id") = u :=
      getString_setKey_same c "user_id" u
    have hr : ((c.setKey "user_id" u).getString "request_id") = c.getString "request_id" :=
      getString_setKey_other c "user_id" "request_id" u (by decide)
    by_cases h3 : c.getString "request_id" = "" <;>
      simp [LoggerFromContext, Logger.With, GetLogger, h1, h2, h3, hu, hr]

/-- A context with a request id but no user id yet. -/
def ridCtx : GinCtx := baseCtx.setKey "request_id" "rid-9"

/-- C9 witness: with only `request_id` present the handle is bound with
exactly that field; after application code sets `user_id`, the handle
differs exactly by the appended `user_id` field; with neither present the
global handle is returned. -/
theorem logger_from_context_binding_witness :
    (ridCtx.getString "request_id" ≠ "" ∧ ridCtx.getString "user_id" = "") ∧
    (LoggerFromContext ridCtx).bound =
      [("request_id", FieldVal.str (ridCtx.getString "request_id"))] ∧
    (LoggerFromContext (ridCtx.setKey "user_id" "u7")).bound =
      (LoggerFromContext ridCtx).bound ++ [("user_id", FieldVal.str "u7")] ∧
    (baseCtx.getString "request_id" = "" ∧ baseCtx.getString "user_id" = "") ∧
    LoggerFromContext baseCtx = GetLogger :=
  ⟨⟨by decide, by decide⟩,
    (logger_from_context_binding ridCtx "u7").2.1 (by decide) (by decide),
    (logger_from_context_binding ridCtx "u7").2.2.2.2 (by decide) (by decide),
    ⟨by decide, by decide⟩,
    (logger_from_context_binding baseCtx "u7").1 (by decide) (by decide)⟩

/-! ### Completion-logger theorems -/

theorem switch_level (logger : Logger) (st : Int) (fs : List (String × FieldVal)) :
    ((if st ≥ 500 then logger.log LogLevel.error "Server error" fs
      else if st ≥ 400 then logger.log LogLevel.warn "Client error" fs
      else if st ≥ 300 then logger.log LogLevel.info "Redirection" fs
      else logger.log LogLevel.info "Request completed" fs).level = LogLevel.error ↔
        500 ≤ st)
    ∧ ((if st ≥ 500 then logger.log LogLevel.error "Server error" fs
      else if st ≥ 400 then logger.log LogLevel.warn "Client error" fs
      else if st ≥ 300 then logger.log LogLevel.info "Redirection" fs
      else logger.log LogLevel.info "Request completed" fs).level = LogLevel.warn ↔
        (400 ≤ st ∧ st < 500))
    ∧ ((if st ≥ 500 then logger.log LogLevel.error "Server error" fs
      else if st ≥ 400 then logger.log LogLevel.warn "Client error" fs
      else if st ≥ 300 then logger.log LogLevel.info "Redirection" fs
      else logger.log LogLevel.info "Request completed" fs).level = LogLevel.info ↔
        st < 400) := by
  split_ifs with hA hB hC <;> simp [Logger.log] <;> omega

/-- C1: for a completed, non-excluded request, both completion loggers emit
exactly one event, whose severity is error iff the final status is at least
500, warning iff it is in [400, 500), and info otherwise. -/
theorem status_severity_bands (scfg : StructuredLoggerConfig) (gcfg : GinLoggerConfig)
    (handler : GinCtx → GinCtx) (c : GinCtx)
    (h1 : c.req.path ∉ scfg.skipPaths)
    (h2 : scfg.skipPathRegexps.any (fun r => r c.req.path) = false)
    (h3 : c.req.path ∉ gcfg.skipPaths) :
    (StructuredLogger scfg handler c).2.length = 1
    ∧ (((StructuredLogger scfg handler c).2.headD dummyEvent).level = LogLevel.error ↔
        500 ≤ (StructuredLogger scfg handler c).1.status)
    ∧ (((StructuredLogger scfg handler c).2.headD dummyEvent).level = LogLevel.warn ↔
        (400 ≤ (StructuredLogger scfg handler c).1.status ∧
          (StructuredLogger scfg handler c).1.status < 500))
    ∧ (((StructuredLogger scfg handler c).2.headD dummyEvent).level = LogLevel.info ↔
        (StructuredLogger scfg handler c).1.status < 400)
    ∧ (GinLoggerWithConfig gcfg handler c).2.length = 1
    ∧ (((GinLoggerWithConfig gcfg handler c).2.headD dummyEvent).level = LogLevel.error ↔
        500 ≤ (GinLoggerWithConfig gcfg handler c).1.status)
    ∧ (((GinLoggerWithConfig gcfg handler c).2.headD dummyEvent).level = LogLevel.warn ↔
        (400 ≤ (GinLoggerWithConfig gcfg handler c).1.status ∧
          (GinLoggerWithConfig gcfg handler c).1.status < 500))
    ∧ (((GinLoggerWithConfig gcfg handler c).2.headD dummyEvent).level = LogLevel.info ↔
        (GinLoggerWithConfig gcfg handler c).1.status < 400) := by
  simp only [StructuredLogger, GinLoggerWithConfig, h1, h2, h3, Bool.false_eq_true,
    if_false, List.headD_cons, List.length_cons, List.length_nil]
  refine ⟨trivial, ?_, ?_, ?_, trivial, ?_, ?_, ?_⟩ <;>
    first
      | exact (switch_level _ _ _).1
      | exact (switch_level _ _ _).2.1
      | exact (switch_level _ _ _).2.2

/-- Default structured config used by witnesses. -/
def sWitCfg : StructuredLoggerConfig := {}

/-- Default basic config used by witnesses. -/
def gWitCfg : GinLoggerConfig := {}

/-- A downstream chain that answers 503. -/
def err503 : GinCtx → GinCtx := fun c => { c with status := 503 }

/-- C1 witness: with the default configs, a 503 response is classified at
error severity by both completion loggers, each emitting one event. -/
theorem status_severity_bands_witness :
    (baseCtx.req.path ∉ sWitCfg.skipPaths
      ∧ sWitCfg.skipPathRegexps.any (fun r => r baseCtx.req.path) = false
      ∧ baseCtx.req.path ∉ gWitCfg.skipPaths) ∧
    ((StructuredLogger sWitCfg err503 baseCtx).2.length = 1
    ∧ (((StructuredLogger sWitCfg err503 baseCtx).2.headD dummyEvent).level = LogLevel.error ↔
        500 ≤ (StructuredLogger sWitCfg err503 baseCtx).1.status)
    ∧ (((StructuredLogger sWitCfg err503 baseCtx).2.headD dummyEvent).level = LogLevel.warn ↔
        (400 ≤ (StructuredLogger sWitCfg err503 baseCtx).1.status ∧
          (StructuredLogger sWitCfg err503 baseCtx).1.status < 500))
    ∧ (((StructuredLogger sWitCfg err503 baseCtx).2.headD dummyEvent).level = LogLevel.info ↔
        (StructuredLogger sWitCfg err503 baseCtx).1.status < 400)
    ∧ (GinLoggerWithConfig gWitCfg err503 baseCtx).2.length = 1
    ∧ (((GinLoggerWithConfig gWitCfg err503 baseCtx).2.headD dummyEvent).level = LogLevel.error ↔
        500 ≤ (GinLoggerWithConfig gWitCfg err503 baseCtx).1.status)
    ∧ (((GinLoggerWithConfig gWitCfg err503 baseCtx).2.headD dummyEvent).level = LogLevel.warn ↔
        (400 ≤ (GinLoggerWithConfig gWitCfg err503 baseCtx).1.status ∧
          (GinLoggerWithConfig gWitCfg err503 baseCtx).1.status < 500))
    ∧ (((GinLoggerWithConfig gWitCfg err503 baseCtx).2.headD dummyEvent).level = LogLevel.info ↔
        (GinLoggerWithConfig gWitCfg err503 baseCtx).1.status < 400)) :=
  ⟨⟨by decide, by decide, by decide⟩,
    status_severity_bands sWitCfg gWitCfg err503 baseCtx
      (by decide) (by decide) (by decide)⟩

/-- C4: when the path is in the exclusion set or matches an exclusion
pattern, the structured interceptor forwards the unmodified context
immediately and emits nothing. -/
theorem structured_skip_exclusion (config : StructuredLoggerConfig)
    (handler : GinCtx → GinCtx) (c : GinCtx)
    (h : c.req.path ∈ config.skipPaths ∨
      config.skipPathRegexps.any (fun r => r c.req.path) = true) :
    StructuredLogger config handler c = (handler c, []) := by
  rcases h with h | h
  · simp [StructuredLogger, h]
  · by_cases h0 : c.req.path ∈ config.skipPaths
    · simp [StructuredLogger, h0]
    · simp [StructuredLogger, h0, h]

/-- Structured config excluding `/health` exactly and `/metrics` by regex. -/
def skipCfg : StructuredLoggerConfig :=
  { skipPaths := ["/health"], skipPathRegexps := [fun p => p == "/metrics"] }

/-- A context requesting `/health`. -/
def healthCtx : GinCtx := { baseCtx with req := { emptyReq with path := "/health" } }

/-- A context requesting `/metrics`. -/
def metricsCtx : GinCtx := { baseCtx with req := { emptyReq with path := "/metrics" } }

/-- C4 witness: `/health` is excluded by the exact set, `/metrics` by the
regex; both pass through with no event. -/
theorem structured_skip_exclusion_witness :
    (healthCtx.req.path ∈ skipCfg.skipPaths ∨
      skipCfg.skipPathRegexps.any (fun r => r healthCtx.req.path) = true) ∧
    StructuredLogger skipCfg id healthCtx = (id healthCtx, []) ∧
    (metricsCtx.req.path ∈ skipCfg.skipPaths ∨
      skipCfg.skipPathRegexps.any (fun r => r metricsCtx.req.path) = true) ∧
    StructuredLogger skipCfg id metricsCtx = (id metricsCtx, []) :=
  ⟨Or.inl (by decide),
    structured_skip_exclusion skipCfg id healthCtx (Or.inl (by decide)),
    Or.inr (by decide),
    structured_skip_exclusion skipCfg id metricsCtx (Or.inr (by decide))⟩

/-! ### Body capture theorems -/

theorem restore_eq_self (c : GinCtx) (s : String) (hb : c.req.body = some (Except.ok s)) :
    ({ c with req := { c.req with body := some (Except.ok s) } }) = c := by
  cases c with
  | mk req keys status respHeaders respSize time aborted =>
    cases req
    simp_all

/-- The structured interceptor always hands the downstream chain a context
carrying the original request content (the captured body is restored), and
returns the chain's result untouched. -/
theorem StructuredLogger_fst (config : StructuredLoggerConfig)
    (handler : GinCtx → GinCtx) (c : GinCtx) :
    (StructuredLogger config handler c).1 = handler c := by
  by_cases h1 : c.req.path ∈ config.skipPaths
  · simp [StructuredLogger, h1]
  · by_cases h2 : (config.skipPathRegexps.any (fun r => r c.req.path)) = true
    · simp [StructuredLogger, h1, h2]
    · by_cases hc : (config.logRequestBody = true ∧ c.req.body.isSome = true ∧
          c.req.contentLength ≤ config.resolvedMaxBodySize)
      · rcases hb : c.req.body with - | e
        · exact absurd (hb ▸ hc.2.1) (by simp)
        · cases e with
          | error u =>
            simp [StructuredLogger, h1, h2, hc, hb]
          | ok s =>
            have hrestore := restore_eq_self c s hb
            simp [StructuredLogger, h1, h2, hc, hb, hrestore]
      · simp [StructuredLogger, h1, h2, hc]

/-- The standalone body logger always hands the downstream chain a context
carrying the original request content, and returns its result untouched. -/
theorem RequestBodyLogger_fst (config : RequestBodyLoggerConfig)
    (handler : GinCtx → GinCtx) (c : GinCtx) :
    (RequestBodyLogger config handler c).1 = handler c := by
  by_cases h1 : c.req.path ∈ config.skipPaths
  · simp [RequestBodyLogger, h1]
  · by_cases hc : (c.req.body.isSome = true ∧
        c.req.contentLength ≤ config.resolvedMaxBodySize)
    · rcases hb : c.req.body with - | e
      · exact absurd (hb ▸ hc.1) (by simp)
      · cases e with
        | error u =>
          simp [RequestBodyLogger, h1, hc, hb]
        | ok s =>
          have hrestore := restore_eq_self c s hb
          simp [RequestBodyLogger, h1, hc, hb, hrestore]
    · simp [RequestBodyLogger, h1, hc]

/-- C5: with body capture enabled and the body within the configured
maximum, both body-capturing interceptors hand the downstream chain the
full original body (read-restore) and forward its result untouched; the
standalone body logger emits its debug event carrying the content; and when
the body read fails both interceptors skip body logging silently and the
request still proceeds. -/
theorem body_capture_restore (scfg : StructuredLoggerConfig)
    (rcfg : RequestBodyLoggerConfig) (handler : GinCtx → GinCtx)
    (c : GinCtx) (s : String) :
    (scfg.logRequestBody = true → c.req.body = some (Except.ok s) →
      c.req.contentLength ≤ scfg.resolvedMaxBodySize →
      (StructuredLogger scfg handler c).1 = handler c)
    ∧ (c.req.path ∉ rcfg.skipPaths → c.req.body = some (Except.ok s) →
      c.req.contentLength ≤ rcfg.resolvedMaxBodySize →
      ((RequestBodyLogger rcfg handler c).1 = handler c
        ∧ (RequestBodyLogger rcfg handler c).2.length = 1
        ∧ ((RequestBodyLogger rcfg handler c).2.headD dummyEvent).level = LogLevel.debug
        ∧ ("body", FieldVal.str s) ∈
            ((RequestBodyLogger rcfg handler c).2.headD dummyEvent).fields))
    ∧ (c.req.body = some (Except.error ()) →
      ((StructuredLogger scfg handler c).1 = handler c
        ∧ (RequestBodyLogger rcfg handler c).1 = handler c
        ∧ (c.req.path ∉ rcfg.skipPaths → (RequestBodyLogger rcfg handler c).2 = []))) := by
  refine ⟨fun _ _ _ => StructuredLogger_fst scfg handler c, ?_, ?_⟩
  · intro h1 hb hcl
    have hrestore := restore_eq_self c s hb
    refine ⟨RequestBodyLogger_fst rcfg handler c, ?_, ?_, ?_⟩ <;>
      simp [RequestBodyLogger, h1, hb, hcl, hrestore, Logger.log, GetLogger]
  · intro hb
    refine ⟨StructuredLogger_fst scfg handler c,
      RequestBodyLogger_fst rcfg handler c, ?_⟩
    intro h1
    by_cases hcl : c.req.contentLength ≤ rcfg.resolvedMaxBodySize <;>
      simp [RequestBodyLogger, h1, hb, hcl]

/-- Structured config with body capture on (default maximum). -/
def capCfg : StructuredLoggerConfig := { logRequestBody := true }

/-- Body-logger config with defaults. -/
def rWitCfg : RequestBodyLoggerConfig := {}

/-- A context with readable body "hello". -/
def bodyCtx : GinCtx :=
  { baseCtx with req := { emptyReq with body := some (Except.ok "hello"), contentLength := 5 } }

/-- A context whose body read fails. -/
def errBodyCtx : GinCtx :=
  { baseCtx with req := { emptyReq with body := some (Except.error ()), contentLength := 5 } }

/-- C5 witness: the "hello" body is restored for the downstream chain and
logged by the standalone body logger; a failing body read is skipped
silently while the request proceeds. -/
theorem body_capture_restore_witness :
    (capCfg.logRequestBody = true ∧ bodyCtx.req.body = some (Except.ok "hello")
      ∧ bodyCtx.req.contentLength ≤ capCfg.resolvedMaxBodySize) ∧
    (StructuredLogger capCfg id bodyCtx).1 = id bodyCtx ∧
    ((RequestBodyLogger rWitCfg id bodyCtx).1 = id bodyCtx
      ∧ (RequestBodyLogger rWitCfg id bodyCtx).2.length = 1
      ∧ ((RequestBodyLogger rWitCfg id bodyCtx).2.headD dummyEvent).level = LogLevel.debug
      ∧ ("body", FieldVal.str "hello") ∈
          ((RequestBodyLogger rWitCfg id bodyCtx).2.headD dummyEvent).fields) ∧
    (errBodyCtx.req.body = some (Except.error ())) ∧
    ((StructuredLogger capCfg id errBodyCtx).1 = id errBodyCtx
      ∧ (RequestBodyLogger rWitCfg id errBodyCtx).1 = id errBodyCtx
      ∧ (errBodyCtx.req.path ∉ rWitCfg.skipPaths → (RequestBodyLogger rWitCfg id errBodyCtx).2 = [])) :=
  ⟨⟨rfl, rfl, by decide⟩,
    (body_capture_restore capCfg rWitCfg id bodyCtx "hello").1 rfl rfl (by decide),
    (body_capture_restore capCfg rWitCfg id bodyCtx "hello").2.1 (by decide) rfl (by decide),
    rfl,
    (body_capture_restore capCfg rWitCfg id errBodyCtx "hello").2.2 rfl⟩

theorem header_name_ne_request_body (h : String) :
    (("header_" ++ h == "request_body") : Bool) = false := by
  refine beq_eq_false_iff_ne.mpr ?_
  intro heq
  have hd := congrArg String.data heq
  rw [String.data_append] at hd
  have h1 : "header_".data = ['h', 'e', 'a', 'd', 'e', 'r', '_'] := rfl
  have h2 : "request_body".data = ['r', 'e', 'q', 'u', 'e', 's', 't', '_', 'b', 'o', 'd', 'y'] := rfl
  rw [h1, h2] at hd
  exact absurd (List.cons.injEq .. ▸ hd).1 (by decide)

theorem headerFields_no_request_body (r : GinRequest) (names : List String) :
    ((headerFields r names).any (fun p => p.1 == "request_body")) = false := by
  induction names with
  | nil => rfl
  | cons h t ih =>
    by_cases hp : getHeader r h ≠ ""
    · simp [headerFields, List.filterMap_cons, hp, header_name_ne_request_body,
        List.any_cons]
      simpa [headerFields] using ih
    · simp only [ne_eq, not_not] at hp
      simp [headerFields, List.filterMap_cons, hp]
      simpa [headerFields] using ih

theorem structuredFields_no_request_body (config : StructuredLoggerConfig)
    (start : Nat) (path raw : String) (c' : GinCtx)
    (hcf : config.customFields = none) :
    ((structuredFields config start path raw "" c').any
      (fun p => p.1 == "request_body")) = false := by
  simp [structuredFields, List.any_append, hcf, headerFields_no_request_body]
  intro a b _ _ ha _
  subst ha
  decide

/-- When the capture precondition fails, the structured interceptor's event
carries no `request_body` field (default logger, no custom fields). -/
theorem structured_no_capture_no_field (config : StructuredLoggerConfig)
    (handler : GinCtx → GinCtx) (c : GinCtx)
    (h1 : c.req.path ∉ config.skipPaths)
    (h2 : config.skipPathRegexps.any (fun r => r c.req.path) = false)
    (hl : config.logger = none)
    (hcf : config.customFields = none)
    (hc : ¬(config.logRequestBody = true ∧ c.req.body.isSome = true ∧
        c.req.contentLength ≤ config.resolvedMaxBodySize)) :
    LogEvent.hasField ((StructuredLogger config handler c).2.headD dummyEvent)
      "request_body" = false := by
  have key := fun c' =>
    structuredFields_no_request_body config c.time c.req.path c.req.rawQuery c' hcf
  simp only [StructuredLogger, h1, h2, hl, hc, Bool.false_eq_true, if_false,
    List.headD_cons, Option.getD_none]
  split_ifs <;>
    simp [LogEvent.hasField, Logger.log, GetLogger, key]

/-- C6: an unset (zero) maximum body size defaults to 1,048,576 bytes; a
declared length above the maximum disables capture — the structured
interceptor's event carries no `request_body` field and the standalone body
logger emits nothing — while the request is still forwarded; likewise no
`request_body` field appears when capture is disabled or the body is nil. -/
theorem body_capture_preconditions (scfg : StructuredLoggerConfig)
    (rcfg : RequestBodyLoggerConfig) (handler : GinCtx → GinCtx) (c : GinCtx) :
    (scfg.maxBodySize = 0 → scfg.resolvedMaxBodySize = 1048576)
    ∧ (rcfg.maxBodySize = 0 → rcfg.resolvedMaxBodySize = 1048576)
    ∧ (c.req.path ∉ scfg.skipPaths →
      scfg.skipPathRegexps.any (fun r => r c.req.path) = false →
      scfg.logger = none → scfg.customFields = none →
      scfg.resolvedMaxBodySize < c.req.contentLength →
      (LogEvent.hasField ((StructuredLogger scfg handler c).2.headD dummyEvent)
          "request_body" = false
        ∧ (StructuredLogger scfg handler c).1 = handler c
        ∧ (StructuredLogger scfg handler c).2.length = 1))
    ∧ (c.req.path ∉ rcfg.skipPaths →
      rcfg.resolvedMaxBodySize < c.req.contentLength →
      RequestBodyLogger rcfg handler c = (handler c, []))
    ∧ (c.req.path ∉ scfg.skipPaths →
      scfg.skipPathRegexps.any (fun r => r c.req.path) = false →
      scfg.logger = none → scfg.customFields = none →
      scfg.logRequestBody = false →
      LogEvent.hasField ((StructuredLogger scfg handler c).2.headD dummyEvent)
        "request_body" = false)
    ∧ (c.req.path ∉ scfg.skipPaths →
      scfg.skipPathRegexps.any (fun r => r c.req.path) = false →
      scfg.logger = none → scfg.customFields = none →
      c.req.body = none →
      LogEvent.hasField ((StructuredLogger scfg handler c).2.headD dummyEvent)
        "request_body" = false) := by
  refine ⟨?_, ?_, ?_, ?_, ?_, ?_⟩
  · intro h
    simp [StructuredLoggerConfig.resolvedMaxBodySize, h]
  · intro h
    simp [RequestBodyLoggerConfig.resolvedMaxBodySize, h]
  · intro h1 h2 hl hcf hcl
    have hc : ¬(scfg.logRequestBody = true ∧ c.req.body.isSome = true ∧
        c.req.contentLength ≤ scfg.resolvedMaxBodySize) := by
      rintro ⟨-, -, hx⟩
      omega
    refine ⟨structured_no_capture_no_field scfg handler c h1 h2 hl hcf hc,
      StructuredLogger_fst scfg handler c, ?_⟩
    simp only [StructuredLogger, h1, h2, Bool.false_eq_true, if_false]
    simp
  · intro h1 hcl
    have hc : ¬(c.req.body.isSome = true ∧
        c.req.contentLength ≤ rcfg.resolvedMaxBodySize) := by
      rintro ⟨-, hx⟩
      omega
    simp [RequestBodyLogger, h1, hc]
  · intro h1 h2 hl hcf hen
    refine structured_no_capture_no_field scfg handler c h1 h2 hl hcf ?_
    simp [hen]
  · intro h1 h2 hl hcf hb
    refine structured_no_capture_no_field scfg handler c h1 h2 hl hcf ?_
    simp [hb]

/-- A context declaring a two-megabyte body. -/
def bigCtx : GinCtx :=
  { baseCtx with
    req := { emptyReq with body := some (Except.ok "x"), contentLength := 2000000 } }

/-- C6 witness: zero maxima resolve to 1,048,576; a declared 2,000,000-byte
body is not captured by either interceptor (no body field, request still
forwarded); capture disabled and nil body also produce no body field. -/
theorem body_capture_preconditions_witness :
    (capCfg.maxBodySize = 0 ∧ capCfg.resolvedMaxBodySize = 1048576) ∧
    (rWitCfg.maxBodySize = 0 ∧ rWitCfg.resolvedMaxBodySize = 1048576) ∧
    (capCfg.resolvedMaxBodySize < bigCtx.req.contentLength) ∧
    (LogEvent.hasField ((StructuredLogger capCfg id bigCtx).2.headD dummyEvent)
        "request_body" = false
      ∧ (StructuredLogger capCfg id bigCtx).1 = id bigCtx
      ∧ (StructuredLogger capCfg id bigCtx).2.length = 1) ∧
    RequestBodyLogger rWitCfg id bigCtx = (id bigCtx, []) ∧
    (sWitCfg.logRequestBody = false ∧
      LogEvent.hasField ((StructuredLogger sWitCfg id bodyCtx).2.headD dummyEvent)
        "request_body" = false) ∧
    (baseCtx.req.body = none ∧
      LogEvent.hasField ((StructuredLogger capCfg id baseCtx).2.headD dummyEvent)
        "request_body" = false) :=
  ⟨⟨rfl, (body_capture_preconditions capCfg rWitCfg id bigCtx).1 rfl⟩,
    ⟨rfl, (body_capture_preconditions capCfg rWitCfg id bigCtx).2.1 rfl⟩,
    by decide,
    (body_capture_preconditions capCfg rWitCfg id bigCtx).2.2.1
      (by decide) (by decide) rfl rfl (by decide),
    (body_capture_preconditions capCfg rWitCfg id bigCtx).2.2.2.1
      (by decide) (by decide),
    ⟨rfl, (body_capture_preconditions sWitCfg rWitCfg id bodyCtx).2.2.2.2.1
      (by decide) (by decide) rfl rfl rfl⟩,
    ⟨rfl, (body_capture_preconditions capCfg rWitCfg id baseCtx).2.2.2.2.2
      (by decide) (by decide) rfl rfl rfl⟩⟩

/-- C10: a negative declared content length passes the
`ContentLength <= MaxBodySize` guard, so (with capture enabled and a
readable body) both interceptors buffer and render the entire body into
their events regardless of its actual size — the maximum bounds only the
declared length. -/
theorem negative_content_length_capture (scfg : StructuredLoggerConfig)
    (rcfg : RequestBodyLoggerConfig) (handler : GinCtx → GinCtx)
    (c : GinCtx) (s : String) :
    (c.req.contentLength < 0 → 0 ≤ scfg.resolvedMaxBodySize →
      c.req.contentLength ≤ scfg.resolvedMaxBodySize)
    ∧ (c.req.path ∉ scfg.skipPaths →
      scfg.skipPathRegexps.any (fun r => r c.req.path) = false →
      scfg.logRequestBody = true →
      c.req.body = some (Except.ok s) →
      c.req.contentLength < 0 → 0 ≤ scfg.resolvedMaxBodySize →
      s ≠ "" →
      ("request_body", FieldVal.str s) ∈
        ((StructuredLogger scfg handler c).2.headD dummyEvent).fields)
    ∧ (c.req.path ∉ rcfg.skipPaths →
      c.req.body = some (Except.ok s) →
      c.req.contentLength < 0 → 0 ≤ rcfg.resolvedMaxBodySize →
      (("body", FieldVal.str s) ∈
          ((RequestBodyLogger rcfg handler c).2.headD dummyEvent).fields
        ∧ (RequestBodyLogger rcfg handler c).2.length = 1)) := by
  refine ⟨by omega, ?_, ?_⟩
  · intro h1 h2 hen hb hneg hmax hs
    have hcl : c.req.contentLength ≤ scfg.resolvedMaxBodySize := by omega
    have hcond : (scfg.logRequestBody = true ∧ c.req.body.isSome = true ∧
        c.req.contentLength ≤ scfg.resolvedMaxBodySize) = True :=
      eq_true ⟨hen, by simp [hb], hcl⟩
    simp only [StructuredLogger, h1, h2, Bool.false_eq_true, if_false, hcond, if_true]
    simp only [hb]
    split_ifs <;>
      simp [Logger.log, structuredFields, hs]
  · intro h1 hb hneg hmax
    have hcl : c.req.contentLength ≤ rcfg.resolvedMaxBodySize := by omega
    have hc : (c.req.body.isSome = true ∧
        c.req.contentLength ≤ rcfg.resolvedMaxBodySize) := ⟨by simp [hb], hcl⟩
    constructor <;>
      simp [RequestBodyLogger, h1, hc, hb, Logger.log, GetLogger]

/-- Structured config capturing bodies with a five-byte declared-length cap. -/
def capCfg5 : StructuredLoggerConfig := { logRequestBody := true, maxBodySize := 5 }

/-- Body-logger config with a five-byte declared-length cap. -/
def rCfg5 : RequestBodyLoggerConfig := { maxBodySize := 5 }

/-- A chunked-style request: unknown (negative) declared length but ten
actual body bytes — twice the configured cap. -/
def chunkedCtx : GinCtx :=
  { baseCtx with
    req := { emptyReq with body := some (Except.ok "0123456789"), contentLength := -1 } }

/-- C10 witness: with a five-byte cap and declared length −1, the ten-byte
body passes the guard and is rendered whole into both interceptors' events. -/
theorem negative_content_length_capture_witness :
    (chunkedCtx.req.contentLength < 0 ∧ (0:Int) ≤ capCfg5.resolvedMaxBodySize
      ∧ chunkedCtx.req.contentLength ≤ capCfg5.resolvedMaxBodySize) ∧
    ("request_body", FieldVal.str "0123456789") ∈
      ((StructuredLogger capCfg5 id chunkedCtx).2.headD dummyEvent).fields ∧
    (("body", FieldVal.str "0123456789") ∈
        ((RequestBodyLogger rCfg5 id chunkedCtx).2.headD dummyEvent).fields
      ∧ (RequestBodyLogger rCfg5 id chunkedCtx).2.length = 1) :=
  ⟨⟨by decide, by decide,
    (negative_content_length_capture capCfg5 rCfg5 id chunkedCtx "0123456789").1
      (by decide) (by decide)⟩,
    (negative_content_length_capture capCfg5 rCfg5 id chunkedCtx "0123456789").2.1
      (by decide) (by decide) rfl rfl (by decide) (by decide) (by decide),
    (negative_content_length_capture capCfg5 rCfg5 id chunkedCtx "0123456789").2.2
      (by decide) rfl (by decide) (by decide)⟩
